import Mathlib

/-!
Verification of the Textify backend core against its specification.

Shallow embedding of `src/Backend/vector_cache.py` (class `VectorCache` and
the module-level singleton accessor) and of
`src/Backend/azure_openai_service.py` (class `AzureOpenAIService`).

Modelling conventions: Python floats are rationals, `datetime.now()` is a
natural-number timestamp supplied by the caller, the cache dictionary is a
function from keys to optional entries, and the reentrant lock of the Python
serialises every public cache operation, so each one is a single atomic state
transition here.  Fallible operations return `Except`.
-/

namespace Textify

/-- A document chunk as the services read it: the dict keys `chunk_id`,
`text` and the query-time `similarity_score`. -/
structure Chunk where
  chunk_id : String
  text : String
  similarity_score : ℚ
deriving DecidableEq

/-- Document metadata: an open-ended key/value record the cache only passes
through (`Dict[str, Any]` in the Python, modelled as string pairs). -/
abbrev Metadata := List (String × String)

/-- State of the per-document `faiss.IndexFlatIP` built by `VectorCache.set`:
its `dimension` (read from `embeddings.shape[1]`) and `ntotal`, the number of
rows added.  The rows added are the float32 L2-normalized copy of the
embeddings; no code embedded here ever reads those numeric entries back (the
claims concern only the cache mapping), so the index records the two fields
the source observes. -/
structure FaissIndex where
  dimension : ℕ
  ntotal : ℕ
deriving DecidableEq

/-- A Document Cache Entry: the dict stored by `VectorCache.set`, holding the
ORIGINAL un-normalized `embeddings` next to `chunks`, `metadata`, the built
`faiss_index` and the `cached_at` timestamp. -/
structure CacheEntry where
  embeddings : List (List ℚ)
  chunks : List Chunk
  metadata : Metadata
  faiss_index : FaissIndex
  cached_at : ℕ
deriving DecidableEq

/-- `embeddings.shape[1]` for a numpy array built from a list of rows: a
nonempty rectangular list has a second axis equal to the common row length;
a ragged list (object array) or an empty one has a one-axis shape, so
reading `shape[1]` raises `IndexError`.  (A directly constructed 2-D array
with zero rows is not representable in this list model; every claim below
uses nonempty inputs.) -/
def npShape1 (rows : List (List ℚ)) : Option ℕ :=
  match rows with
  | [] => none
  | r :: rest => if rest.all (fun v => v.length == r.length) then some r.length else none

/-- The `VectorCache` state: `_cache`, `_initialized` and `_last_refresh`
(the `threading.RLock` makes each public operation one atomic transition). -/
structure VectorCache where
  cache : String → Option CacheEntry
  initialized : Bool
  last_refresh : Option ℕ

/-- The `VectorCache()` constructor: empty dict, `_initialized = False`,
`_last_refresh = None`. -/
def VectorCache.empty : VectorCache :=
  { cache := fun _ => none, initialized := false, last_refresh := none }

/-- `is_cached(document_id)`: `document_id in self._cache`. -/
def VectorCache.is_cached (c : VectorCache) (document_id : String) : Bool :=
  (c.cache document_id).isSome

/-- `get(document_id)`: `self._cache.get(document_id)`. -/
def VectorCache.get (c : VectorCache) (document_id : String) : Option CacheEntry :=
  c.cache document_id

/-- The exception `set` can raise before touching the dict: reading
`embeddings.shape[1]` of an array with no second axis raises `IndexError`.
When it is raised, the dict assignment has not happened and the cache is
unchanged (the caller keeps the old state). -/
inductive SetError
  | indexError
deriving DecidableEq

/-- The dict after `self._cache[document_id] = entry`: the given key is
remapped, every other key keeps its binding. -/
def VectorCache.withEntry (c : VectorCache) (document_id : String) (e : CacheEntry) :
    VectorCache :=
  { c with cache := fun k => if k = document_id then some e else c.cache k }

/-- `set(document_id, embeddings, chunks, metadata)`.  The source performs no
validation of `len(embeddings)` against `len(chunks)` and no uniformity
check: it reads `dimension = embeddings.shape[1]` (raising `IndexError` when
the shape has no second entry, in which case nothing was mutated), builds
`faiss.IndexFlatIP(dimension)`, adds the L2-normalized float32 COPY of the
embeddings to it, and stores the entry dict carrying the original
`embeddings`, `chunks`, `metadata`, the index and `datetime.now()` (`now`). -/
def VectorCache.set (c : VectorCache) (document_id : String)
    (embeddings : List (List ℚ)) (chunks : List Chunk) (metadata : Metadata)
    (now : ℕ) : Except SetError VectorCache :=
  match npShape1 embeddings with
  | none => .error .indexError
  | some dimension =>
      .ok (c.withEntry document_id
        { embeddings := embeddings, chunks := chunks, metadata := metadata,
          faiss_index := { dimension := dimension, ntotal := embeddings.length },
          cached_at := now })

/-- `remove(document_id)`: deletes the key and returns True when present,
otherwise returns False leaving the cache unchanged. -/
def VectorCache.remove (c : VectorCache) (document_id : String) :
    Bool × VectorCache :=
  match c.cache document_id with
  | some _ =>
      (true, { c with cache := fun k => if k = document_id then none else c.cache k })
  | none => (false, c)

/-- `clear()`: empties the dict and resets `_initialized` and
`_last_refresh`. -/
def VectorCache.clear (_c : VectorCache) : VectorCache :=
  { cache := fun _ => none, initialized := false, last_refresh := none }

/-- `mark_initialized()`: sets the flag and stamps `_last_refresh`. -/
def VectorCache.mark_initialized (c : VectorCache) (now : ℕ) : VectorCache :=
  { c with initialized := true, last_refresh := some now }

/-- `is_initialized()`. -/
def VectorCache.is_initialized (c : VectorCache) : Bool :=
  c.initialized

/-- C7: after `clear()` the cache holds no entry — `is_cached` is false and
`get` returns none for every id — `is_initialized()` is false and
`last_refresh` is reset to empty. -/
theorem clear_resets (c : VectorCache) (document_id : String) :
    c.clear.is_cached document_id = false ∧
    c.clear.get document_id = none ∧
    c.clear.is_initialized = false ∧
    c.clear.last_refresh = none :=
  ⟨rfl, rfl, rfl, rfl⟩

/-- C10: in every cache state (hence in every state reachable by the public
operations), `is_cached document_id` is true exactly when
`get document_id` returns an entry: both read the very same dict slot. -/
theorem is_cached_iff_get (c : VectorCache) (document_id : String) :
    c.is_cached document_id = true ↔ (c.get document_id).isSome = true :=
  Iff.rfl

/-- C1 is false on the code: `set` with two vectors and one chunk raises no
ShapeMismatch — no such validation exists — and it installs a fresh entry
under the key. -/
theorem set_mismatch_installs_entry :
    ((VectorCache.empty.set "doc" [[1, 0], [0, 1]]
        [{ chunk_id := "c1", text := "t", similarity_score := 1 }] [] 0).toOption.bind
      (fun v => v.get "doc")).isSome = true := by
  rfl

/-- C1 amended: `set` performs no count or uniformity validation.  Whenever
the embeddings array has a second axis (`npShape1` yields a dimension),
`set` succeeds even with `len(embeddings) ≠ len(chunks)` and atomically
installs the new entry — the single dict assignment — replacing any prior
entry under the key and leaving every other key unchanged. -/
theorem set_installs_despite_mismatch (c : VectorCache) (document_id : String)
    (embeddings : List (List ℚ)) (chunks : List Chunk) (metadata : Metadata)
    (now d : ℕ) (hshape : npShape1 embeddings = some d)
    (hmismatch : embeddings.length ≠ chunks.length) :
    c.set document_id embeddings chunks metadata now =
      .ok (c.withEntry document_id
        { embeddings := embeddings, chunks := chunks, metadata := metadata,
          faiss_index := { dimension := d, ntotal := embeddings.length },
          cached_at := now }) ∧
    (∀ e, (c.withEntry document_id e).get document_id = some e) ∧
    (∀ e k, k ≠ document_id → (c.withEntry document_id e).get k = c.get k) := by
  refine ⟨?_, ?_, ?_⟩
  · simp only [VectorCache.set, hshape]
  · intro e
    simp [VectorCache.withEntry, VectorCache.get]
  · intro e k hk
    simp [VectorCache.withEntry, VectorCache.get, hk]

/-- Witness for the amended C1 at a concrete input: two 2-dimensional
vectors, an empty chunk list (2 ≠ 0), an empty prior cache. -/
theorem set_installs_despite_mismatch_witness :
    VectorCache.empty.set "doc" [[1, 0], [0, 1]] [] [] 0 =
      .ok (VectorCache.empty.withEntry "doc"
        { embeddings := [[1, 0], [0, 1]], chunks := [], metadata := [],
          faiss_index := { dimension := 2, ntotal := 2 },
          cached_at := 0 }) ∧
    (∀ e, (VectorCache.empty.withEntry "doc" e).get "doc" = some e) ∧
    (∀ e k, k ≠ "doc" → (VectorCache.empty.withEntry "doc" e).get k = VectorCache.empty.get k) :=
  set_installs_despite_mismatch VectorCache.empty "doc" [[1, 0], [0, 1]] [] [] 0 2
    (by rfl) (by decide)

/-- C6: for valid input with matching lengths, `set` then `get` returns an
entry whose `embeddings`, `chunks` and `metadata` are the inputs unchanged;
in particular the stored embeddings are the original un-normalized vectors
(the L2 normalization feeds only the float32 copy inside the index). -/
theorem set_get_roundtrip (c : VectorCache) (document_id : String)
    (embeddings : List (List ℚ)) (chunks : List Chunk) (metadata : Metadata)
    (now d : ℕ) (hshape : npShape1 embeddings = some d)
    (hlen : embeddings.length = chunks.length) :
    ∀ v, c.set document_id embeddings chunks metadata now = .ok v →
      v.get document_id = some
        { embeddings := embeddings, chunks := chunks, metadata := metadata,
          faiss_index := { dimension := d, ntotal := embeddings.length },
          cached_at := now } := by
  intro v hv
  simp only [VectorCache.set, hshape] at hv
  cases hv
  simp [VectorCache.withEntry, VectorCache.get]

/-- Witness for C6 at a concrete input: two 2-dimensional vectors, two
chunks, one metadata pair. -/
theorem set_get_roundtrip_witness :
    (VectorCache.empty.withEntry "doc"
      { embeddings := [[1, 0], [0, 1]],
        chunks := [{ chunk_id := "c1", text := "alpha", similarity_score := 0 },
                   { chunk_id := "c2", text := "beta", similarity_score := 0 }],
        metadata := [("title", "T")],
        faiss_index := { dimension := 2, ntotal := 2 },
        cached_at := 7 }).get "doc" = some
      { embeddings := [[1, 0], [0, 1]],
        chunks := [{ chunk_id := "c1", text := "alpha", similarity_score := 0 },
                   { chunk_id := "c2", text := "beta", similarity_score := 0 }],
        metadata := [("title", "T")],
        faiss_index := { dimension := 2, ntotal := 2 },
        cached_at := 7 } :=
  set_get_roundtrip VectorCache.empty "doc" [[1, 0], [0, 1]]
    [{ chunk_id := "c1", text := "alpha", similarity_score := 0 },
     { chunk_id := "c2", text := "beta", similarity_score := 0 }]
    [("title", "T")] 7 2 (by rfl) (by rfl) _ (by rfl)

/-! ### AzureOpenAIService (`src/Backend/azure_openai_service.py`) -/

/-- One labelled context part inside `_build_context`:
the f-string `"[Context " + str(i + 1) + "]\n" + chunk["text"] + "\n"`. -/
def contextPart (i : ℕ) (text : String) : String :=
  "[Context " ++ toString (i + 1) ++ "]\n" ++ text ++ "\n"

/-- The loop of `_build_context`: walks the enumerated chunk texts keeping
the running `total_length`, and breaks at the first part whose inclusion
would push `total_length` past `max_length`. -/
def contextParts : List (ℕ × String) → ℕ → ℕ → List String
  | [], _, _ => []
  | (i, t) :: rest, total_length, max_length =>
      let chunk_text := contextPart i t
      if max_length < total_length + chunk_text.length then []
      else chunk_text :: contextParts rest (total_length + chunk_text.length) max_length

/-- `_build_context(chunks, max_length)`: `"\n".join(context_parts)` over the
parts collected by the loop (default `max_length` in the source is 10000). -/
def build_context (chunks : List Chunk) (max_length : ℕ) : String :=
  String.intercalate "\n" (contextParts (chunks.map Chunk.text).enum 0 max_length)

/-- C2 fails on the code at a concrete input: with two empty-text chunks and
`max_length = 26` each labelled part is 13 characters and both pass the
cumulative check (13 + 13 = 26), yet `"\n".join` inserts a separator the
loop never counted, so the returned context has 27 > 26 characters. -/
theorem build_context_exceeds_max_length :
    (build_context [{ chunk_id := "c1", text := "", similarity_score := 0 },
                    { chunk_id := "c2", text := "", similarity_score := 0 }] 26).length = 27 := by
  rfl

/-- The fixed weights `[1.0, 0.8, 0.6, 0.4, 0.2]` of `_estimate_confidence`. -/
def confidenceWeights : List ℚ :=
  [1, 4/5, 3/5, 2/5, 1/5]

/-- The accumulation loop of `_estimate_confidence`:
`for i, chunk in enumerate(chunks[:5])`, with
`weight = weights[i] if i < len(weights) else 0.1`, accumulating
`(total_score, total_weight)`; `i` is the enumeration index and the list
argument the rest of the slice. -/
def confidence_totals : ℕ → List Chunk → ℚ × ℚ
  | _, [] => (0, 0)
  | i, ch :: rest =>
      let weight := confidenceWeights.getD i (1/10)
      let tail := confidence_totals (i + 1) rest
      (ch.similarity_score * weight + tail.1, weight + tail.2)

/-- `_estimate_confidence(chunks)`: 0.0 on empty input, otherwise
`min(total_score / total_weight if total_weight > 0 else 0.0, 1.0)` over the
first five chunks. -/
def estimate_confidence (chunks : List Chunk) : ℚ :=
  if chunks.isEmpty then 0
  else
    let totals := confidence_totals 0 (chunks.take 5)
    min (if 0 < totals.2 then totals.1 / totals.2 else 0) 1

/-- Every weight the loop can pick is positive (the `0.1` fallback is dead
code, since the slice keeps the index below 5). -/
lemma confidenceWeights_getD_pos (i : ℕ) : 0 < confidenceWeights.getD i (1/10) := by
  rcases i with _ | _ | _ | _ | _ | j <;>
    simp [confidenceWeights, List.getD]

lemma confidence_totals_weight_nonneg (i : ℕ) (l : List Chunk) :
    0 ≤ (confidence_totals i l).2 := by
  induction l generalizing i with
  | nil => simp [confidence_totals]
  | cons ch rest ih =>
      have hw := confidenceWeights_getD_pos i
      have ht := ih (i + 1)
      simp only [confidence_totals]
      linarith

lemma confidence_totals_weight_pos (i : ℕ) (l : List Chunk) (h : l ≠ []) :
    0 < (confidence_totals i l).2 := by
  match l with
  | ch :: rest =>
      have hw := confidenceWeights_getD_pos i
      have ht := confidence_totals_weight_nonneg (i + 1) rest
      simp only [confidence_totals]
      linarith

lemma confidence_totals_score_nonneg (i : ℕ) (l : List Chunk)
    (h : ∀ ch ∈ l, 0 ≤ ch.similarity_score) :
    0 ≤ (confidence_totals i l).1 := by
  induction l generalizing i with
  | nil => simp [confidence_totals]
  | cons ch rest ih =>
      have hw := (confidenceWeights_getD_pos i).le
      have hs := h ch (List.mem_cons_self ch rest)
      have ht := ih (i + 1) (fun x hx => h x (List.mem_cons_of_mem ch hx))
      simp only [confidence_totals]
      have := mul_nonneg hs hw
      linarith

/-- C3 fails on the code: one chunk with similarity score −1 (cosine scores
live in [−1, 1]) yields confidence −1, outside [0, 1] — `min(·, 1.0)` clamps
only from above. -/
theorem estimate_confidence_negative :
    estimate_confidence [{ chunk_id := "c1", text := "t", similarity_score := -1 }] = -1 := by
  norm_num [estimate_confidence, confidence_totals, confidenceWeights]

/-- C3 amended: `_estimate_confidence` returns 0 on empty input and otherwise
`min(total_score / total_weight, 1)` over the first `min(n, 5)` chunks with
the positional weights (the `total_weight > 0` guard is always true there);
the result is always at most 1, and lies in [0, 1] whenever every similarity
score is nonnegative — scores below 0 push it below 0. -/
theorem estimate_confidence_spec (chunks : List Chunk) :
    estimate_confidence [] = 0 ∧
    (chunks ≠ [] → estimate_confidence chunks =
      min ((confidence_totals 0 (chunks.take 5)).1 /
           (confidence_totals 0 (chunks.take 5)).2) 1) ∧
    estimate_confidence chunks ≤ 1 ∧
    ((∀ ch ∈ chunks, 0 ≤ ch.similarity_score) → 0 ≤ estimate_confidence chunks) := by
  refine ⟨rfl, ?_, ?_, ?_⟩
  · intro hne
    have htake : chunks.take 5 ≠ [] := by
      simp [List.take_eq_nil_iff, hne]
    have hpos := confidence_totals_weight_pos 0 (chunks.take 5) htake
    simp [estimate_confidence, List.isEmpty_iff, hne, hpos]
  · by_cases hne : chunks = []
    · subst hne; simp [estimate_confidence]
    · simp [estimate_confidence, List.isEmpty_iff, hne]
  · intro hnn
    by_cases hne : chunks = []
    · subst hne; simp [estimate_confidence]
    · have htake : chunks.take 5 ≠ [] := by
        simp [List.take_eq_nil_iff, hne]
      have hpos := confidence_totals_weight_pos 0 (chunks.take 5) htake
      have hscore := confidence_totals_score_nonneg 0 (chunks.take 5)
        (fun x hx => hnn x (List.mem_of_mem_take hx))
      simp [estimate_confidence, List.isEmpty_iff, hne, hpos]
      exact div_nonneg hscore hpos.le

/-- Witness for the amended C3 at the one-chunk list with score 1/2: its
confidence equals the claimed formula and lies in [0, 1]. -/
theorem estimate_confidence_spec_witness :
    estimate_confidence [{ chunk_id := "a", text := "t", similarity_score := 1/2 }] =
      min ((confidence_totals 0
              ([{ chunk_id := "a", text := "t", similarity_score := 1/2 }].take 5)).1 /
           (confidence_totals 0
              ([{ chunk_id := "a", text := "t", similarity_score := 1/2 }].take 5)).2) 1 ∧
    estimate_confidence [{ chunk_id := "a", text := "t", similarity_score := 1/2 }] ≤ 1 ∧
    0 ≤ estimate_confidence [{ chunk_id := "a", text := "t", similarity_score := 1/2 }] := by
  have h := estimate_confidence_spec [{ chunk_id := "a", text := "t", similarity_score := 1/2 }]
  refine ⟨h.2.1 (by simp), h.2.2.1, h.2.2.2 ?_⟩
  intro ch hch
  simp only [List.mem_singleton] at hch
  subst hch
  norm_num

/-- Evaluation of `_estimate_confidence` on a one-chunk list. -/
lemma ec_eval1 (a : Chunk) :
    estimate_confidence [a] = min a.similarity_score 1 := by
  norm_num [estimate_confidence, confidence_totals, confidenceWeights]

/-- Evaluation on a two-chunk list. -/
lemma ec_eval2 (a b : Chunk) :
    estimate_confidence [a, b] =
      min ((a.similarity_score + b.similarity_score * (4/5)) / (9/5)) 1 := by
  norm_num [estimate_confidence, confidence_totals, confidenceWeights]

/-- Evaluation on a three-chunk list. -/
lemma ec_eval3 (a b c : Chunk) :
    estimate_confidence [a, b, c] =
      min ((a.similarity_score + b.similarity_score * (4/5) +
        c.similarity_score * (3/5)) / (12/5)) 1 := by
  norm_num [estimate_confidence, confidence_totals, confidenceWeights]
  ring_nf

/-- Evaluation on a four-chunk list. -/
lemma ec_eval4 (a b c d : Chunk) :
    estimate_confidence [a, b, c, d] =
      min ((a.similarity_score + b.similarity_score * (4/5) +
        c.similarity_score * (3/5) + d.similarity_score * (2/5)) / (14/5)) 1 := by
  norm_num [estimate_confidence, confidence_totals, confidenceWeights]
  ring_nf

/-- Evaluation on a list of five or more chunks: only the first five count. -/
lemma ec_eval5 (a b c d e : Chunk) (rest : List Chunk) :
    estimate_confidence (a :: b :: c :: d :: e :: rest) =
      min ((a.similarity_score + b.similarity_score * (4/5) +
        c.similarity_score * (3/5) + d.similarity_score * (2/5) +
        e.similarity_score * (1/5)) / 3) 1 := by
  norm_num [estimate_confidence, confidence_totals, confidenceWeights]
  ring_nf

/-- C4: prepending a chunk whose similarity score is at least every score in
the (nonempty) ranked list never decreases the computed confidence. -/
theorem estimate_confidence_mono (c : Chunk) (chunks : List Chunk)
    (hne : chunks ≠ [])
    (hmax : ∀ ch ∈ chunks, ch.similarity_score ≤ c.similarity_score) :
    estimate_confidence chunks ≤ estimate_confidence (c :: chunks) := by
  match chunks with
  | [] => exact absurd rfl hne
  | [a] =>
      have ha := hmax a (by simp)
      rw [ec_eval1, ec_eval2]
      refine min_le_min ?_ le_rfl
      rw [le_div_iff₀ (by norm_num)]
      linarith
  | [a, b] =>
      have ha := hmax a (by simp)
      have hb := hmax b (by simp)
      rw [ec_eval2, ec_eval3]
      refine min_le_min ?_ le_rfl
      rw [div_le_div_iff₀ (by norm_num) (by norm_num)]
      linarith
  | [a, b, c2] =>
      have ha := hmax a (by simp)
      have hb := hmax b (by simp)
      have hc := hmax c2 (by simp)
      rw [ec_eval3, ec_eval4]
      refine min_le_min ?_ le_rfl
      rw [div_le_div_iff₀ (by norm_num) (by norm_num)]
      linarith
  | [a, b, c2, d] =>
      have ha := hmax a (by simp)
      have hb := hmax b (by simp)
      have hc := hmax c2 (by simp)
      have hd := hmax d (by simp)
      rw [ec_eval4, ec_eval5]
      refine min_le_min ?_ le_rfl
      rw [div_le_div_iff₀ (by norm_num) (by norm_num)]
      linarith
  | a :: b :: c2 :: d :: e :: rest =>
      have ha := hmax a (by simp)
      have hb := hmax b (by simp)
      have hc := hmax c2 (by simp)
      have hd := hmax d (by simp)
      have he := hmax e (by simp)
      rw [ec_eval5, ec_eval5]
      refine min_le_min ?_ le_rfl
      rw [div_le_div_iff₀ (by norm_num) (by norm_num)]
      linarith

/-- Witness for C4: prepending a score-3/4 chunk to the one-chunk list with
score 1/2 does not decrease the confidence. -/
theorem estimate_confidence_mono_witness :
    estimate_confidence [{ chunk_id := "a", text := "t", similarity_score := 1/2 }] ≤
      estimate_confidence ({ chunk_id := "b", text := "u", similarity_score := 3/4 } ::
        [{ chunk_id := "a", text := "t", similarity_score := 1/2 }]) := by
  refine estimate_confidence_mono
    { chunk_id := "b", text := "u", similarity_score := 3/4 }
    [{ chunk_id := "a", text := "t", similarity_score := 1/2 }] (by simp) ?_
  intro ch hch
  simp only [List.mem_singleton] at hch
  subst hch
  norm_num

/-- One element of the `sources` list built on the success path of
`generate_rag_answer`. -/
structure SourceRef where
  chunk_id : String
  similarity_score : ℚ
  preview : String
deriving DecidableEq

/-- The result dict of `generate_rag_answer`.  The Python carries the key
`model_used` only on the success path; the other dicts lack it, modelled as
`none`. -/
structure RagResult where
  answer : String
  confidence : ℚ
  sources : List SourceRef
  chunks_retrieved : ℕ
  model_used : Option String
deriving DecidableEq

/-- The `AzureOpenAIService` state read by `generate_rag_answer`: whether
`self.client` is set (the constructor raises when initialization fails, so a
live instance always has one — the `if not self.client` branch is
defensive), and `self.model_name`. -/
structure AzureOpenAIService where
  client : Option Unit
  model_name : Option String
deriving DecidableEq

/-- Behaviour of the external `_generate_completion` boundary for one call:
the Azure API call raises, or returns `response.choices[0].message.content`
(`None` when the response has no choices or no content).  The embedded
`generate_rag_answer` takes this outcome as a parameter, since the call is
an external collaborator. -/
inductive CompletionOutcome
  | raises (msg : String)
  | returns (content : Option String)
deriving DecidableEq

/-- Source preview: `chunk["text"][:200] + "..."` when the text is longer
than 200 characters, else the text itself. -/
def sourcePreview (text : String) : String :=
  if 200 < text.length then text.take 200 ++ "..." else text

/-- The `sources` list: `{chunk_id, similarity_score, preview}` for the top
three chunks (`relevant_chunks[:3]`). -/
def summarize_sources (chunks : List Chunk) : List SourceRef :=
  (chunks.take 3).map (fun ch =>
    { chunk_id := ch.chunk_id, similarity_score := ch.similarity_score,
      preview := sourcePreview ch.text })

/-- `generate_rag_answer(question, relevant_chunks, document_id, ...)`.
Branch order as in the source: the defensive `if not self.client` guard,
then inside the try block the empty-chunks check (before any external
call), then the completion call, whose outcome is the `outcome` parameter;
the `except` clause catches a raising boundary and converts it into an
error dict, so the function always returns a dict.  The returned Bool
records whether the language-model boundary was invoked.  The context fed
to the prompt is `build_context relevant_chunks 10000`; prompt strings go
only to the external call and are elided. -/
def generate_rag_answer (svc : AzureOpenAIService) (question : String)
    (relevant_chunks : List Chunk) (document_id : String)
    (outcome : CompletionOutcome) : RagResult × Bool :=
  if svc.client.isNone then
    ({ answer := "Azure OpenAI service not available", confidence := 0,
       sources := [], chunks_retrieved := 0, model_used := none }, false)
  else if relevant_chunks.isEmpty then
    ({ answer := "No relevant context found in the document to answer this question.",
       confidence := 0, sources := [], chunks_retrieved := 0, model_used := none }, false)
  else
    match outcome with
    | .raises msg =>
        ({ answer := "Error generating answer: " ++ msg, confidence := 0,
           sources := [], chunks_retrieved := relevant_chunks.length,
           model_used := none }, true)
    | .returns (some text) =>
        if text.isEmpty then
          ({ answer := "Unable to generate response - empty response from Azure OpenAI",
             confidence := 0, sources := [], chunks_retrieved := relevant_chunks.length,
             model_used := none }, true)
        else
          ({ answer := text.trim, confidence := estimate_confidence relevant_chunks,
             sources := summarize_sources relevant_chunks,
             chunks_retrieved := relevant_chunks.length,
             model_used := svc.model_name }, true)
    | .returns none =>
        ({ answer := "Unable to generate response - empty response from Azure OpenAI",
           confidence := 0, sources := [], chunks_retrieved := relevant_chunks.length,
           model_used := none }, true)

/-- C5: with the client present and an empty ranked-chunk list,
`generate_rag_answer` returns the fixed no-context dict with confidence 0
and zero chunks retrieved, and the language-model boundary is never invoked
(the flag is false for every possible completion outcome — the emptiness
check runs before the call is attempted). -/
theorem no_context_skips_completion (svc : AzureOpenAIService)
    (question document_id : String) (outcome : CompletionOutcome)
    (hclient : svc.client.isSome = true) :
    generate_rag_answer svc question [] document_id outcome =
      ({ answer := "No relevant context found in the document to answer this question.",
         confidence := 0, sources := [], chunks_retrieved := 0,
         model_used := none }, false) := by
  rcases svc with ⟨c, m⟩
  cases c with
  | none => simp at hclient
  | some u => rfl

/-- Witness for C5: a live service, any question, the raising outcome. -/
theorem no_context_skips_completion_witness :
    generate_rag_answer { client := some (), model_name := some "gpt-4" }
        "What is this?" [] "doc1" (.raises "boom") =
      ({ answer := "No relevant context found in the document to answer this question.",
         confidence := 0, sources := [], chunks_retrieved := 0,
         model_used := none }, false) :=
  no_context_skips_completion { client := some (), model_name := some "gpt-4" }
    "What is this?" "doc1" (.raises "boom") (by rfl)

/-- The failing outcomes of the external boundary: the call raises, or it
returns no content (`None`, or the empty string, which `if response:`
treats as absent). -/
def CompletionOutcome.failed : CompletionOutcome → Prop
  | .raises _ => True
  | .returns none => True
  | .returns (some text) => text = ""

/-- C8: when the external language-model call fails or returns no content,
`generate_rag_answer` returns a structured dict — confidence 0, no sources,
and one of the fixed error answers (the raising case is caught by the
`except` clause and stringified) — rather than propagating the fault; being
a total function into `RagResult × Bool`, the embedded operation returns a
well-formed result on every path. -/
theorem upstream_failure_structured (svc : AzureOpenAIService)
    (question document_id : String) (relevant_chunks : List Chunk)
    (outcome : CompletionOutcome) (hfail : outcome.failed) :
    (generate_rag_answer svc question relevant_chunks document_id outcome).1.confidence = 0 ∧
    (generate_rag_answer svc question relevant_chunks document_id outcome).1.sources = [] ∧
    ((generate_rag_answer svc question relevant_chunks document_id outcome).1.answer =
        "Azure OpenAI service not available" ∨
     (generate_rag_answer svc question relevant_chunks document_id outcome).1.answer =
        "No relevant context found in the document to answer this question." ∨
     (generate_rag_answer svc question relevant_chunks document_id outcome).1.answer =
        "Unable to generate response - empty response from Azure OpenAI" ∨
     ∃ msg, outcome = .raises msg ∧
       (generate_rag_answer svc question relevant_chunks document_id outcome).1.answer =
        "Error generating answer: " ++ msg) := by
  by_cases hc : svc.client.isNone
  · simp [generate_rag_answer, hc]
  · by_cases hch : relevant_chunks.isEmpty
    · simp [generate_rag_answer, hc, hch]
    · match outcome with
      | .raises msg =>
          simp [generate_rag_answer, hc, hch]
      | .returns none =>
          simp [generate_rag_answer, hc, hch]
      | .returns (some text) =>
          have htext : text = "" := hfail
          subst htext
          simp [generate_rag_answer, hc, hch, String.isEmpty_iff]

/-- Witness for C8: a live service, one chunk, the boundary returns `None`. -/
theorem upstream_failure_structured_witness :
    (generate_rag_answer { client := some (), model_name := some "gpt-4" } "Q"
        [{ chunk_id := "a", text := "t", similarity_score := 1/2 }] "doc1"
        (.returns none)).1.confidence = 0 ∧
    (generate_rag_answer { client := some (), model_name := some "gpt-4" } "Q"
        [{ chunk_id := "a", text := "t", similarity_score := 1/2 }] "doc1"
        (.returns none)).1.sources = [] ∧
    ((generate_rag_answer { client := some (), model_name := some "gpt-4" } "Q"
        [{ chunk_id := "a", text := "t", similarity_score := 1/2 }] "doc1"
        (.returns none)).1.answer = "Azure OpenAI service not available" ∨
     (generate_rag_answer { client := some (), model_name := some "gpt-4" } "Q"
        [{ chunk_id := "a", text := "t", similarity_score := 1/2 }] "doc1"
        (.returns none)).1.answer =
        "No relevant context found in the document to answer this question." ∨
     (generate_rag_answer { client := some (), model_name := some "gpt-4" } "Q"
        [{ chunk_id := "a", text := "t", similarity_score := 1/2 }] "doc1"
        (.returns none)).1.answer =
        "Unable to generate response - empty response from Azure OpenAI" ∨
     ∃ msg, (.returns none : CompletionOutcome) = .raises msg ∧
       (generate_rag_answer { client := some (), model_name := some "gpt-4" } "Q"
          [{ chunk_id := "a", text := "t", similarity_score := 1/2 }] "doc1"
          (.returns none)).1.answer = "Error generating answer: " ++ msg) :=
  upstream_failure_structured { client := some (), model_name := some "gpt-4" } "Q" "doc1"
    [{ chunk_id := "a", text := "t", similarity_score := 1/2 }]
    (.returns none) trivial

end Textify
